import Mathlib

/-
Shallow embedding of the hospital queue management system
(database.js and server.js).

Modelling conventions:
- SQLite rows are Lean structures whose field names are the column names.
- Timestamps and calendar days are natural numbers; each queue entry stores
  the day it was registered on (in the source the day is derived from the
  registration timestamp by string truncation, using the same clock that
  computes the "today" used in the count queries, so we carry one `today`
  field in the database state and stamp it into inserted rows).
- Request fields are Option-typed, because the JavaScript route performs no
  validation: an absent JSON field is `undefined`, which node-sqlite3 binds
  as SQL NULL; a NOT NULL column then rejects the insert with a storage
  error.  `Except String` models the rejected promise.
- JavaScript property access on a missing key yields `undefined`;
  `undefined + 1` is NaN.  We model a numeric JavaScript value that may be
  NaN as `Option Nat` (`none` = NaN/undefined).
- SQLite BINARY string comparison on ASCII text is lexicographic byte
  comparison, modelled by `tokenLt`.
-/

/-- Row of the `patients` table; field names are the SQL column names. -/
structure Patient where
  id : Nat
  name : String
  age : Nat
  gender : String
  contact : String
  created_at : Nat
  last_visit : Nat
  visit_count : Nat
  deriving DecidableEq

/-- Row of the `queue` table; field names are the SQL column names, plus
the calendar day of `registered_at` (what `DATE(registered_at)` yields). -/
structure Entry where
  id : Nat
  patient_id : Nat
  token : String
  department : String
  symptoms : Option String
  status : String
  registered_at : Nat
  day : Nat
  called_at : Option Nat
  completed_at : Option Nat
  deriving DecidableEq

/-- The SQLite database state, plus the autoincrement counters and the
current calendar day (the `today` both queries derive from the clock). -/
structure DB where
  patients : List Patient
  queue : List Entry
  nextPatientId : Nat
  nextQueueId : Nat
  today : Nat
  deriving DecidableEq

/-- Body of a POST /api/register request: every field may be absent. -/
structure RegRequest where
  name : Option String
  age : Option Nat
  gender : Option String
  contact : Option String
  department : Option String
  symptoms : Option String
  deriving DecidableEq

/-- Change events broadcast to the connected WebSocket clients
(NEW_REGISTRATION and STATUS_UPDATE messages). -/
inductive Event where
  | newRegistration (patientId queueId : Nat) (token : String) (position : Nat)
  | statusUpdate (queueId : Nat) (status : String)
  deriving DecidableEq

/-- The JSON body answered by a successful POST /api/register.
`visitCount` is `Option Nat` because the route can compute NaN. -/
structure RegResult where
  token : String
  position : Nat
  isReturning : Bool
  visitCount : Option Nat
  patientId : Nat
  deriving DecidableEq

deriving instance DecidableEq for Except

/-- Outcome of running the register route: the HTTP result, the database
state afterwards, and the events broadcast. -/
structure RegOutcome where
  res : Except String RegResult
  db : DB
  events : List Event
  deriving DecidableEq

/-- Outcome of running the status-update route. -/
structure StatusOutcome where
  success : Bool
  db : DB
  events : List Event
  deriving DecidableEq

/-- Lexicographic byte comparison of character lists (SQLite BINARY
collation on ASCII strings). -/
def strLtbAux : List Char → List Char → Bool
  | [], [] => false
  | [], _ :: _ => true
  | _ :: _, [] => false
  | a :: as, b :: bs =>
    if a.toNat < b.toNat then true
    else if b.toNat < a.toNat then false
    else strLtbAux as bs

/-- SQL `token < ?` string comparison. -/
def tokenLt (s t : String) : Bool :=
  strLtbAux s.toList t.toList

/-- JavaScript `String(n).padStart(3, c)` for c = zero. -/
def padStart3 (s : String) : String :=
  if s.length < 3 then String.mk (List.replicate (3 - s.length) ('0')) ++ s else s

/-- JavaScript template-literal rendering of a possibly-undefined string. -/
def jsToString : Option String → String
  | some s => s
  | none => "undefined"

/-- SQL comparison `column = boundParameter` where the bound JavaScript
value may be undefined (bound as NULL, which compares false to anything). -/
def sqlEqOpt : Option String → String → Bool
  | some d, s => d == s
  | none, _ => false

/-- JavaScript numeric property access on a patients row: the SQL column
names are the only keys present; any other key yields undefined (`none`). -/
def jsNumField (p : Patient) (key : String) : Option Nat :=
  if key == "id" then some p.id
  else if key == "age" then some p.age
  else if key == "created_at" then some p.created_at
  else if key == "last_visit" then some p.last_visit
  else if key == "visit_count" then some p.visit_count
  else none

/-- database.js getPatientByContact: SELECT * FROM patients WHERE contact = ?. -/
def getPatientByContact (contact : Option String) (st : DB) : Option Patient :=
  match contact with
  | none => none
  | some c => st.patients.find? (fun p => p.contact == c)

/-- database.js addPatient: INSERT INTO patients ... ON CONFLICT(contact) DO
UPDATE SET last_visit = now, visit_count = visit_count + 1, then SELECT id
WHERE contact = ?.  NOT NULL columns reject a NULL (undefined) binding. -/
def addPatient (req : RegRequest) (now : Nat) (st : DB) : Except String (Nat × DB) :=
  match req.name, req.age, req.gender, req.contact with
  | some n, some a, some g, some c =>
    match st.patients.find? (fun p => p.contact == c) with
    | some p =>
      let ps := st.patients.map (fun q =>
        if q.contact == c then
          { q with last_visit := now, visit_count := q.visit_count + 1 }
        else q)
      Except.ok (p.id, { st with patients := ps })
    | none =>
      let pid := st.nextPatientId
      Except.ok (pid,
        { st with
          patients := st.patients ++ [⟨pid, n, a, g, c, now, now, 1⟩],
          nextPatientId := pid + 1 })
  | _, _, _, _ => Except.error ("NOT NULL constraint failed")

/-- database.js generateToken: counts today's rows for the department and
returns department ++ String(count + 1).padStart(3, zero). -/
def generateToken (department : Option String) (st : DB) : String :=
  let count := (st.queue.filter
    (fun e => sqlEqOpt department e.department && e.day == st.today)).length
  jsToString department ++ padStart3 (Nat.repr (count + 1))

/-- database.js addToQueue: INSERT INTO queue (patient_id, token, department,
symptoms, status); `department` is NOT NULL, `symptoms` is nullable. -/
def addToQueue (patientId : Nat) (token : String) (department : Option String)
    (symptoms : Option String) (status : String) (now : Nat) (st : DB) :
    Except String (Nat × DB) :=
  match department with
  | none => Except.error ("NOT NULL constraint failed")
  | some d =>
    let qid := st.nextQueueId
    Except.ok (qid,
      { st with
        queue := st.queue ++
          [⟨qid, patientId, token, d, symptoms, status, now, st.today, none, none⟩],
        nextQueueId := qid + 1 })

/-- database.js getQueuePosition: SELECT COUNT(*) FROM queue WHERE
department = ? AND status = Waiting AND token < ? AND DATE(registered_at) = today. -/
def getQueuePosition (token : String) (department : Option String) (st : DB) : Nat :=
  (st.queue.filter (fun e =>
    sqlEqOpt department e.department && e.status == "Waiting" &&
    tokenLt e.token token && e.day == st.today)).length

/-- Tail of the register route after the patient has been resolved:
generate a token, insert the queue entry, compute the position, broadcast. -/
def registerAfterPatient (req : RegRequest) (now : Nat) (patientId : Nat)
    (isReturning : Bool) (visitCount : Option Nat) (st1 : DB) : RegOutcome :=
  let token := generateToken req.department st1
  match addToQueue patientId token req.department req.symptoms ("Waiting") now st1 with
  | Except.error e => ⟨Except.error e, st1, []⟩
  | Except.ok (qid, st2) =>
    let position := getQueuePosition token req.department st2
    ⟨Except.ok ⟨token, position, isReturning, visitCount, patientId⟩, st2,
      [Event.newRegistration patientId qid token position]⟩

/-- server.js POST /api/register: look up the patient by contact; for an
existing patient the route reads row.visitCount (a key absent from the row,
whose columns are snake_case) so the computed visitCount is undefined + 1 =
NaN, and it never writes the stored record; a new patient goes through
addPatient.  Then token generation, queue insert, position, broadcast. -/
def registerRoute (req : RegRequest) (now : Nat) (st : DB) : RegOutcome :=
  match getPatientByContact req.contact st with
  | some p =>
    registerAfterPatient req now p.id true ((jsNumField p ("visitCount")).map (· + 1)) st
  | none =>
    match addPatient req now st with
    | Except.error e => ⟨Except.error e, st, []⟩
    | Except.ok (pid, st1) => registerAfterPatient req now pid false (some 1) st1

/-- Per-row effect of database.js updateQueueStatus: status is always
overwritten; called_at is stamped when the new status is In Progress,
completed_at when it is Completed; no validation of any kind. -/
def applyStatus (e : Entry) (status : String) (t : Nat) : Entry :=
  { e with
    status := status,
    called_at := if status = "In Progress" then some t else e.called_at,
    completed_at := if status = "Completed" then some t else e.completed_at }

/-- database.js updateQueueStatus: UPDATE queue SET status = ? [, called_at /
completed_at = ?] WHERE id = ?; matching zero rows is not an error. -/
def updateQueueStatus (queueId : Nat) (status : String) (t : Nat) (st : DB) : DB :=
  { st with queue := st.queue.map (fun e =>
      if e.id = queueId then applyStatus e status t else e) }

/-- server.js PUT /api/queue/:queueId/status: runs the update, broadcasts a
STATUS_UPDATE, and always answers success (absent a storage failure). -/
def statusRoute (queueId : Nat) (status : String) (t : Nat) (st : DB) : StatusOutcome :=
  ⟨true, updateQueueStatus queueId status t st, [Event.statusUpdate queueId status]⟩

/-- WebSocket readyState OPEN. -/
def wsOPEN : Nat := 1

/-- One connected WebSocket client. -/
structure Client where
  id : Nat
  readyState : Nat
  deriving DecidableEq

/-- server.js broadcast: iterates the clients set and sends the message to
every client whose readyState is OPEN; returns the deliveries attempted
(sending is fire-and-forget, the writer gets no failure signal). -/
def broadcastDeliveries (clients : List Client) (m : Event) : List (Nat × Event) :=
  (clients.filter (fun c => c.readyState == wsOPEN)).map (fun c => (c.id, m))

/-- server.js connection handler: a client whose socket errors or closes is
deleted from the clients set (ws.on error / ws.on close both delete). -/
def dropFailed (clients : List Client) (failing : List Nat) : List Client :=
  clients.filter (fun c => !(decide (c.id ∈ failing)))

/-- Spec-worded position, for comparison with the code: the count of queue
entries in the same department and calendar day whose status is Waiting and
whose token is lexicographically smaller than the given token. -/
def specPosition (st : DB) (day : Nat) (dept tok : String) : Nat :=
  (st.queue.filter (fun e =>
    e.department == dept && e.status == "Waiting" &&
    tokenLt e.token tok && e.day == day)).length

/-- Effect on one entry of a sequence of status updates (each pair is the
requested status and the wall-clock time the route stamps with). -/
def applyTrace (e : Entry) : List (String × Nat) → Entry
  | [] => e
  | (s, t) :: rest => applyTrace (applyStatus e s t) rest

/-- The update times are nondecreasing and at least `lo` (a wall clock never
runs backwards). -/
def timesOK (lo : Nat) : List (String × Nat) → Bool
  | [] => true
  | (_, t) :: rest => decide (lo ≤ t) && timesOK t rest

/-- The time of the last update in the trace, or `lo` for the empty trace. -/
def lastTime (lo : Nat) : List (String × Nat) → Nat
  | [] => lo
  | (_, t) :: rest => lastTime t rest

/-- Registration request of patient A in the concrete scenarios. -/
def reqA : RegRequest :=
  ⟨some ("A"), some 30, some ("F"), some ("555-0001"), some ("GEN"), none⟩

/-- Registration request of patient B in the concrete scenarios. -/
def reqB : RegRequest :=
  ⟨some ("B"), some 25, some ("M"), some ("555-0002"), some ("GEN"), none⟩

/-- The empty database at the start of a day. -/
def st0 : DB := ⟨[], [], 1, 1, 0⟩

/-- First registration of the day: patient A into department GEN. -/
def firstReg : RegOutcome := registerRoute reqA 0 st0

/-- Second registration: patient B into department GEN. -/
def secondRegB : RegOutcome := registerRoute reqB 1 firstReg.db

/-- Patient A registers a second time with the same contact number. -/
def secondRegSame : RegOutcome := registerRoute reqA 1 firstReg.db

/-- Two concurrent register requests interleaved at the await points of the
route: each await in POST /api/register yields to the event loop, so both
token-count queries (generateToken) can run before either queue insert
(addToQueue) commits; the individual SQLite statements themselves are the
atomic steps.  This function runs that schedule for requests A and B. -/
def raceRun : Option (String × String × DB) :=
  match addPatient reqA 0 st0 with
  | Except.error _ => none
  | Except.ok (pidA, st1) =>
    match addPatient reqB 0 st1 with
    | Except.error _ => none
    | Except.ok (pidB, st2) =>
      let tokenA := generateToken reqA.department st2
      let tokenB := generateToken reqB.department st2
      match addToQueue pidA tokenA reqA.department reqA.symptoms ("Waiting") 0 st2 with
      | Except.error _ => none
      | Except.ok (_, st3) =>
        match addToQueue pidB tokenB reqB.department reqB.symptoms ("Waiting") 0 st3 with
        | Except.error _ => none
        | Except.ok (_, st4) => some (tokenA, tokenB, st4)

/-- Queue row n of a day with many GEN registrations, exactly as the code
would have inserted it: token GEN concatenated with the padded number. -/
def genEntry (n : Nat) : Entry :=
  ⟨n, 1, "GEN" ++ padStart3 (Nat.repr n), "GEN", none, "Waiting", 0, 0, none, none⟩

/-- A day on which department GEN already has 999 registrations, all Waiting. -/
def bigState : DB := ⟨[], (List.range 999).map (fun i => genEntry (i + 1)), 1, 1000, 0⟩

/-- The thousandth registration of the day in department GEN. -/
def req1000 : RegRequest :=
  ⟨some ("Z"), some 20, some ("F"), some ("555-1000"), some ("GEN"), none⟩

/-- Outcome of the thousandth GEN registration. -/
def reg1000 : RegOutcome := registerRoute req1000 5 bigState

/-- One-entry queue whose entry is Completed (for the transition claims). -/
def stC2 : DB := ⟨[], [⟨1, 1, "GEN001", "GEN", none, "Completed", 0, 0, some 1, some 2⟩], 1, 2, 0⟩

/-- One-entry queue whose entry has id 3 and is Waiting. -/
def stW2 : DB := ⟨[], [⟨3, 1, "GEN001", "GEN", none, "Waiting", 0, 0, none, none⟩], 1, 4, 0⟩

/-- One-entry queue with a fresh Waiting entry with id 1. -/
def stC5 : DB := ⟨[], [⟨1, 1, "GEN001", "GEN", none, "Waiting", 0, 0, none, none⟩], 1, 2, 0⟩

/-- Status updates applied out of order through the route: Completed at time
1, then In Progress at time 2. -/
def stC5b : DB := (statusRoute 1 ("In Progress") 2 (statusRoute 1 ("Completed") 1 stC5).db).db

/-- Fresh Waiting entry registered at time 5 (for the timestamp claims). -/
def eW : Entry := ⟨1, 1, "GEN001", "GEN", none, "Waiting", 5, 0, none, none⟩

/-- The legal update trace: In Progress at 6, then Completed at 7. -/
def trW : List (String × Nat) := [("In Progress", 6), ("Completed", 7)]

/-- Registration request whose department field is absent. -/
def reqNoDept : RegRequest :=
  ⟨some ("D"), some 40, some ("M"), some ("555-0009"), none, none⟩

/-- Registration request whose name field is absent. -/
def reqNoName : RegRequest :=
  ⟨none, some 40, some ("M"), some ("555-0010"), some ("GEN"), none⟩

/-- Two connected observers, both OPEN. -/
def clientsW : List Client := [⟨1, wsOPEN⟩, ⟨2, wsOPEN⟩]

set_option maxRecDepth 10000

lemma sqlEqOpt_some (d s : String) : sqlEqOpt (some d) s = (s == d) := by
  by_cases h : d = s
  · subst h; simp [sqlEqOpt]
  · have h1 : (d == s) = false := beq_eq_false_iff_ne.mpr h
    have h2 : (s == d) = false := beq_eq_false_iff_ne.mpr (Ne.symm h)
    simp [sqlEqOpt, h1, h2]

lemma getQueuePosition_eq_specPosition (tok d : String) (st : DB) :
    getQueuePosition tok (some d) st = specPosition st st.today d tok := by
  unfold getQueuePosition specPosition
  congr 1
  apply List.filter_congr
  intro e _
  rw [sqlEqOpt_some]

lemma addPatient_ok_inv (req : RegRequest) (now : Nat) (st : DB) (pid : Nat) (st1 : DB)
    (h : addPatient req now st = Except.ok (pid, st1)) :
    st1.queue = st.queue ∧ st1.today = st.today ∧ st1.nextQueueId = st.nextQueueId := by
  unfold addPatient at h
  split at h
  · split at h
    · rw [Except.ok.injEq, Prod.mk.injEq] at h
      rw [← h.2]
      exact ⟨rfl, rfl, rfl⟩
    · rw [Except.ok.injEq, Prod.mk.injEq] at h
      rw [← h.2]
      exact ⟨rfl, rfl, rfl⟩
  · simp at h

lemma addToQueue_ok_today (patientId : Nat) (token : String) (department : Option String)
    (symptoms : Option String) (status : String) (now : Nat) (st : DB) (qid : Nat) (st2 : DB)
    (h : addToQueue patientId token department symptoms status now st = Except.ok (qid, st2)) :
    st2.today = st.today := by
  unfold addToQueue at h
  split at h
  · simp at h
  · rw [Except.ok.injEq, Prod.mk.injEq] at h
    rw [← h.2]

/-- C1: the spec requires all tokens issued by concurrent registrations within
one (department, day) to be pairwise distinct, even when the token-count query
and the entry insertion of two registrations interleave.  The code has no
serialization around the count-then-insert pair, and each await in the route
yields to the event loop, so the schedule in `raceRun` is reachable: both
registrations count zero GEN entries and both receive token GEN001, leaving
two same-day GEN queue entries with the same token. -/
theorem C1_interleaved_registrations_duplicate_token :
    raceRun.map (fun r => r.1) = some ("GEN001") ∧
    raceRun.map (fun r => r.2.1) = some ("GEN001") ∧
    raceRun.map (fun r =>
      (r.2.2.queue.filter (fun e =>
        e.token == "GEN001" && e.department == "GEN" && e.day == st0.today)).length) =
      some 2 := by
  exact ⟨by decide, by decide, by decide⟩

/-- C2 counterexample: the claim says a transition out of Completed fails with
an InvalidTransition error, leaves the entry unchanged and broadcasts nothing.
On the entry of stC2, which is Completed, requesting status Waiting succeeds,
rewrites the status to Waiting, and broadcasts a STATUS_UPDATE. -/
theorem C2_completed_to_waiting_succeeds :
    (statusRoute 1 ("Waiting") 5 stC2).success = true ∧
    (statusRoute 1 ("Waiting") 5 stC2).db.queue =
      [⟨1, 1, "GEN001", "GEN", none, "Waiting", 0, 0, some 1, some 2⟩] ∧
    (statusRoute 1 ("Waiting") 5 stC2).events = [Event.statusUpdate 1 ("Waiting")] := by
  exact ⟨by decide, by decide, by decide⟩

/-- C4: the claim says a registration with a known contact increments the
stored visit count, refreshes last-visit, and returns that incremented count.
The code never writes the stored record on the returning-patient path and
reads row.visitCount / row.lastVisit, keys absent from the snake_case row, so
the returned visitCount is undefined + 1 = NaN (`none`).  After A registers
twice, the stored row still has visit_count 1 and last_visit 0, and the
second response carries isReturning = true with visitCount = NaN. -/
theorem C4_returning_patient_stored_count_not_incremented :
    secondRegSame.res = Except.ok ⟨"GEN002", 1, true, none, 1⟩ ∧
    secondRegSame.db.patients = [⟨1, "A", 30, "F", "555-0001", 0, 0, 1⟩] := by
  exact ⟨by decide, by decide⟩

/-- C5 counterexample: the claim says registration time <= called_at <=
completed_at whenever both are present.  Updating the entry of stC5 to
Completed at time 1 and then to In Progress at time 2 (both updates succeed,
as the code validates nothing) leaves called_at = 2 > completed_at = 1. -/
theorem C5_called_after_completed :
    stC5b.queue = [⟨1, 1, "GEN001", "GEN", none, "In Progress", 0, 0, some 2, some 1⟩] ∧
    ¬(2 ≤ 1) := by
  exact ⟨by decide, by decide⟩

/-- C3 counterexample: the claim says a status update for a nonexistent
entryId fails with NotFound and no success result is returned.  On the empty
database the route reports success and broadcasts the event anyway. -/
theorem C3_unknown_entry_reports_success :
    (statusRoute 1 ("Completed") 5 st0).success = true ∧
    (statusRoute 1 ("Completed") 5 st0).db = st0 ∧
    (statusRoute 1 ("Completed") 5 st0).events = [Event.statusUpdate 1 ("Completed")] := by
  exact ⟨by decide, by decide, by decide⟩

/-- C10: once department GEN has 999 same-day entries, the next token is
GEN1000 (the numeric suffix outgrows the three-digit padding), GEN1000 sorts
lexicographically before GEN999, and the position returned for the thousandth
registration is 100, strictly less than the 999 earlier-registered Waiting
entries of the department. -/
theorem C10_padding_overflow_misorders_positions :
    reg1000.res = Except.ok ⟨"GEN1000", 100, false, some 1, 1⟩ ∧
    tokenLt ("GEN1000") ("GEN999") = true ∧
    (bigState.queue.filter (fun e =>
      e.department == "GEN" && e.day == bigState.today &&
      e.status == "Waiting")).length = 999 ∧
    100 < 999 := by
  exact ⟨by decide, by decide, by decide, by decide⟩

/-- C2 amended: the code performs no transition validation at all.  Every
requested status value is accepted for every entry: the route reports
success, always broadcasts a STATUS_UPDATE, rewrites the matching entry by
applyStatus (stamping called_at on In Progress and completed_at on
Completed), and leaves the other entries unchanged. -/
theorem C2_any_transition_accepted (st : DB) (qid : Nat) (s : String) (t : Nat) :
    (statusRoute qid s t st).success = true ∧
    (statusRoute qid s t st).events = [Event.statusUpdate qid s] ∧
    (∀ e ∈ st.queue, e.id = qid → applyStatus e s t ∈ (statusRoute qid s t st).db.queue) ∧
    (∀ e ∈ st.queue, e.id ≠ qid → e ∈ (statusRoute qid s t st).db.queue) := by
  refine ⟨rfl, rfl, ?_, ?_⟩
  · intro e he h
    have h2 := List.mem_map_of_mem
      (fun e : Entry => if e.id = qid then applyStatus e s t else e) he
    simpa [statusRoute, updateQueueStatus, h] using h2
  · intro e he h
    have h2 := List.mem_map_of_mem
      (fun e : Entry => if e.id = qid then applyStatus e s t else e) he
    simpa [statusRoute, updateQueueStatus, h] using h2

/-- Witness for C2: on stW2 the Waiting entry with id 3 is rewritten to In
Progress at time 7. -/
theorem C2_any_transition_accepted_witness :
    applyStatus ⟨3, 1, "GEN001", "GEN", none, "Waiting", 0, 0, none, none⟩ ("In Progress") 7 ∈
      (statusRoute 3 ("In Progress") 7 stW2).db.queue :=
  (C2_any_transition_accepted stW2 3 ("In Progress") 7).2.2.1
    ⟨3, 1, "GEN001", "GEN", none, "Waiting", 0, 0, none, none⟩ (by decide) rfl

/-- C3 amended: a status update whose entryId matches no queue entry is a
no-op on the state (so "no state is mutated" holds), but it does not fail:
the code performs no existence check, reports success to the caller, and
still broadcasts a STATUS_UPDATE for the nonexistent entry. -/
theorem C3_unknown_entry_is_silent_noop (st : DB) (qid : Nat) (s : String) (t : Nat)
    (h : ∀ e ∈ st.queue, e.id ≠ qid) :
    (statusRoute qid s t st).success = true ∧
    (statusRoute qid s t st).db = st ∧
    (statusRoute qid s t st).events = [Event.statusUpdate qid s] := by
  refine ⟨rfl, ?_, rfl⟩
  have hq : st.queue.map (fun e => if e.id = qid then applyStatus e s t else e) = st.queue := by
    have h1 : ∀ e ∈ st.queue,
        (fun e : Entry => if e.id = qid then applyStatus e s t else e) e = id e := by
      intro e he
      simp [if_neg (h e he)]
    rw [List.map_congr_left h1, List.map_id]
  show (updateQueueStatus qid s t st) = st
  unfold updateQueueStatus
  rw [hq]

/-- Witness for C3: updating entry 1 on stW2, whose only entry has id 3. -/
theorem C3_unknown_entry_is_silent_noop_witness :
    (statusRoute 1 ("Waiting") 9 stW2).success = true ∧
    (statusRoute 1 ("Waiting") 9 stW2).db = stW2 ∧
    (statusRoute 1 ("Waiting") 9 stW2).events = [Event.statusUpdate 1 ("Waiting")] :=
  C3_unknown_entry_is_silent_noop stW2 1 ("Waiting") 9 (by decide)

/-- C7: the allocated token is the department identifier concatenated with
the zero-padded decimal representation of (count of existing same-department
same-day entries) + 1; concretely, the first GEN registration of the day
receives token GEN001 with position 0 and the second GEN002 with position 1. -/
theorem C7_token_format_and_first_two_registrations :
    (∀ (d : String) (st : DB),
      generateToken (some d) st =
        d ++ padStart3 (Nat.repr
          ((st.queue.filter (fun e => e.department == d && e.day == st.today)).length + 1))) ∧
    firstReg.res = Except.ok ⟨"GEN001", 0, false, some 1, 1⟩ ∧
    secondRegB.res = Except.ok ⟨"GEN002", 1, false, some 1, 2⟩ := by
  refine ⟨?_, by decide, by decide⟩
  intro d st
  have hf : st.queue.filter (fun e => sqlEqOpt (some d) e.department && e.day == st.today) =
      st.queue.filter (fun e => e.department == d && e.day == st.today) := by
    apply List.filter_congr
    intro e _
    rw [sqlEqOpt_some]
  simp [generateToken, jsToString, hf]


/-- Tail lemma for C6: once the patient is resolved, the position the route
returns is the spec-worded count over the post-insertion state. -/
lemma registerAfterPatient_position (req : RegRequest) (now : Nat) (patientId : Nat)
    (isReturning : Bool) (visitCount : Option Nat) (st1 : DB) (d : String) (res : RegResult)
    (hdep : req.department = some d)
    (hres : (registerAfterPatient req now patientId isReturning visitCount st1).res =
      Except.ok res) :
    res.position =
      specPosition (registerAfterPatient req now patientId isReturning visitCount st1).db
        st1.today d res.token := by
  simp only [registerAfterPatient] at hres ⊢
  cases hq : addToQueue patientId (generateToken req.department st1) req.department
      req.symptoms ("Waiting") now st1 with
  | error e =>
    rw [hq] at hres
    simp at hres
  | ok p =>
    obtain ⟨qid, st2⟩ := p
    rw [hq] at hres
    have h1 : (⟨generateToken req.department st1,
        getQueuePosition (generateToken req.department st1) req.department st2,
        isReturning, visitCount, patientId⟩ : RegResult) = res := Except.ok.inj hres
    subst h1
    show getQueuePosition (generateToken req.department st1) req.department st2 =
      specPosition st2 st1.today d (generateToken req.department st1)
    rw [hdep, getQueuePosition_eq_specPosition,
      addToQueue_ok_today _ _ _ _ _ _ _ _ _ hq]

/-- C6: for every successful registration, the returned position equals the
count, over the state right after the insertion, of queue entries in the same
department and calendar day whose status is Waiting and whose token is
lexicographically smaller than the new entry's token. -/
theorem C6_position_counts_smaller_waiting_tokens (req : RegRequest) (now : Nat) (st : DB)
    (d : String) (res : RegResult) (hdep : req.department = some d)
    (hres : (registerRoute req now st).res = Except.ok res) :
    res.position = specPosition (registerRoute req now st).db st.today d res.token := by
  unfold registerRoute at hres ⊢
  cases hex : getPatientByContact req.contact st with
  | some p =>
    rw [hex] at hres
    exact registerAfterPatient_position req now p.id true
      ((jsNumField p ("visitCount")).map (· + 1)) st d res hdep hres
  | none =>
    rw [hex] at hres
    cases hap : addPatient req now st with
    | error e =>
      rw [hap] at hres
      simp at hres
    | ok q =>
      obtain ⟨pid, st1⟩ := q
      rw [hap] at hres
      have h1 := registerAfterPatient_position req now pid false (some 1) st1 d res hdep hres
      rw [(addPatient_ok_inv req now st pid st1 hap).2.1] at h1
      exact h1

/-- Witness for C6: the first registration of the day returns position 0,
the spec-worded count over the resulting state. -/
theorem C6_position_counts_smaller_waiting_tokens_witness :
    (⟨"GEN001", 0, false, some 1, 1⟩ : RegResult).position =
      specPosition (registerRoute reqA 0 st0).db st0.today ("GEN")
        (RegResult.token ⟨"GEN001", 0, false, some 1, 1⟩) :=
  C6_position_counts_smaller_waiting_tokens reqA 0 st0 ("GEN")
    ⟨"GEN001", 0, false, some 1, 1⟩ rfl (by decide)

/-- C8 counterexample: the claim says a registration with a missing required
field is rejected before any state mutation, with no Patient record created.
A request missing only the department passes patient insertion first: the
route creates the Patient record, then fails at the queue insert, so the
rejected registration leaves a new Patient behind (nothing is broadcast). -/
theorem C8_missing_department_creates_patient :
    (registerRoute reqNoDept 0 st0).res = Except.error ("NOT NULL constraint failed") ∧
    (registerRoute reqNoDept 0 st0).db.patients =
      [⟨1, "D", 40, "M", "555-0009", 0, 0, 1⟩] ∧
    (registerRoute reqNoDept 0 st0).events = [] := by
  exact ⟨by decide, by decide, by decide⟩

/-- C8 amended: the route has no validation layer; malformed registrations
fail only on the storage NOT NULL constraints.  A request missing name, age,
gender or contact (with no patient matching its contact) fails at the patient
insert: the whole state is unchanged and nothing is broadcast.  A request
missing the department fails only at the queue insert: no queue entry is
added and nothing is broadcast, but the patients table may already have been
mutated by that same request (see the counterexample). -/
theorem C8_failures_are_storage_errors (req : RegRequest) (now : Nat) (st : DB) :
    (getPatientByContact req.contact st = none →
      (req.name = none ∨ req.age = none ∨ req.gender = none ∨ req.contact = none) →
      (registerRoute req now st).res = Except.error ("NOT NULL constraint failed") ∧
      (registerRoute req now st).db = st ∧
      (registerRoute req now st).events = []) ∧
    (req.department = none →
      (∃ msg, (registerRoute req now st).res = Except.error msg) ∧
      (registerRoute req now st).events = [] ∧
      (registerRoute req now st).db.queue = st.queue) := by
  constructor
  · intro hex hmiss
    have haddp : addPatient req now st = Except.error ("NOT NULL constraint failed") := by
      rcases hmiss with h | h | h | h
      · simp [addPatient, h]
      · cases hn : req.name <;> simp [addPatient, hn, h]
      · cases hn : req.name <;> cases ha : req.age <;> simp [addPatient, hn, ha, h]
      · cases hn : req.name <;> cases ha : req.age <;> cases hg : req.gender <;>
          simp [addPatient, hn, ha, hg, h]
    refine ⟨?_, ?_, ?_⟩ <;> simp [registerRoute, hex, haddp]
  · intro hd
    cases hex : getPatientByContact req.contact st with
    | some p =>
      refine ⟨⟨"NOT NULL constraint failed", ?_⟩, ?_, ?_⟩ <;>
        simp [registerRoute, hex, registerAfterPatient, hd, addToQueue]
    | none =>
      cases hap : addPatient req now st with
      | error e =>
        refine ⟨⟨e, ?_⟩, ?_, ?_⟩ <;> simp [registerRoute, hex, hap]
      | ok q =>
        obtain ⟨pid, st1⟩ := q
        have hq1 := (addPatient_ok_inv req now st pid st1 hap).1
        refine ⟨⟨"NOT NULL constraint failed", ?_⟩, ?_, ?_⟩ <;>
          simp [registerRoute, hex, hap, registerAfterPatient, hd, addToQueue, hq1]

/-- Witness for C8: a registration missing the name on the empty database
fails with the constraint error, mutating nothing and broadcasting nothing. -/
theorem C8_failures_are_storage_errors_witness :
    (registerRoute reqNoName 0 st0).res = Except.error ("NOT NULL constraint failed") ∧
    (registerRoute reqNoName 0 st0).db = st0 ∧
    (registerRoute reqNoName 0 st0).events = [] :=
  (C8_failures_are_storage_errors reqNoName 0 st0).1 (by decide) (Or.inl rfl)

/-- C9: a delivery failure of one observer is invisible to the writer (the
status route reports success regardless of the observer set), does not
prevent delivery to any other OPEN observer, and the failed observer is
removed from the distribution set by the error handler, after which no
delivery is addressed to a client outside the remaining set. -/
theorem C9_observer_failure_is_isolated (cs : List Client) (failing : List Nat)
    (m m2 : Event) (c : Client) :
    (∀ (qid : Nat) (s : String) (t : Nat) (st : DB), (statusRoute qid s t st).success = true) ∧
    (c ∈ cs → c.readyState = wsOPEN → (c.id, m) ∈ broadcastDeliveries cs m) ∧
    (c.id ∈ failing → c ∉ dropFailed cs failing) ∧
    (∀ p ∈ broadcastDeliveries (dropFailed cs failing) m2,
      ∃ c2, c2 ∈ dropFailed cs failing ∧ c2.readyState = wsOPEN ∧ c2.id = p.1) := by
  refine ⟨fun _ _ _ _ => rfl, ?_, ?_, ?_⟩
  · intro hc hro
    unfold broadcastDeliveries
    have hfil : c ∈ List.filter (fun c => c.readyState == wsOPEN) cs := by
      apply List.mem_filter.mpr
      refine ⟨hc, ?_⟩
      rw [hro]
      simp
    exact List.mem_map_of_mem (fun c : Client => (c.id, m)) hfil
  · intro hf hmem
    have h2 := (List.mem_filter.mp hmem).2
    simp [hf] at h2
  · intro p hp
    obtain ⟨c2, hc2, hpe⟩ := List.mem_map.mp hp
    have h2 := List.mem_filter.mp hc2
    refine ⟨c2, h2.1, by simpa using h2.2, ?_⟩
    cases hpe
    rfl

/-- Witness for C9: with both observers OPEN and observer 2 failing, observer
1 still gets the delivery and observer 2 leaves the distribution set. -/
theorem C9_observer_failure_is_isolated_witness :
    (1, Event.statusUpdate 1 ("Completed")) ∈
      broadcastDeliveries clientsW (Event.statusUpdate 1 ("Completed")) ∧
    (⟨2, wsOPEN⟩ : Client) ∉ dropFailed clientsW [2] :=
  ⟨(C9_observer_failure_is_isolated clientsW [2] (Event.statusUpdate 1 ("Completed"))
      (Event.statusUpdate 1 ("Completed")) ⟨1, wsOPEN⟩).2.1 (by decide) rfl,
   (C9_observer_failure_is_isolated clientsW [2] (Event.statusUpdate 1 ("Completed"))
      (Event.statusUpdate 1 ("Completed")) ⟨2, wsOPEN⟩).2.2.1 (by decide)⟩

lemma applyTrace_called_isSome (tr : List (String × Nat)) :
    ∀ (e : Entry), (applyTrace e tr).called_at.isSome =
      (e.called_at.isSome || tr.any (fun p => p.1 == "In Progress")) := by
  induction tr with
  | nil =>
    intro e
    simp [applyTrace]
  | cons p rest ih =>
    obtain ⟨s, t⟩ := p
    intro e
    have h1 : applyTrace e ((s, t) :: rest) = applyTrace (applyStatus e s t) rest := rfl
    rw [h1, ih (applyStatus e s t)]
    by_cases h : s = "In Progress"
    · simp [applyStatus, h]
    · have hb : (s == "In Progress") = false := beq_eq_false_iff_ne.mpr h
      simp [applyStatus, h, hb, Bool.or_assoc]

lemma applyTrace_completed_isSome (tr : List (String × Nat)) :
    ∀ (e : Entry), (applyTrace e tr).completed_at.isSome =
      (e.completed_at.isSome || tr.any (fun p => p.1 == "Completed")) := by
  induction tr with
  | nil =>
    intro e
    simp [applyTrace]
  | cons p rest ih =>
    obtain ⟨s, t⟩ := p
    intro e
    have h1 : applyTrace e ((s, t) :: rest) = applyTrace (applyStatus e s t) rest := rfl
    rw [h1, ih (applyStatus e s t)]
    by_cases h : s = "Completed"
    · simp [applyStatus, h]
    · have hb : (s == "Completed") = false := beq_eq_false_iff_ne.mpr h
      simp [applyStatus, h, hb, Bool.or_assoc]

lemma applyTrace_mono (tr : List (String × Nat)) :
    ∀ (e : Entry) (lo : Nat), timesOK lo tr = true →
      (∀ t0, e.called_at = some t0 → t0 ≤ lo) →
      (∀ t0, e.completed_at = some t0 → t0 ≤ lo) →
      ((∀ t0, e.called_at = some t0 →
          ∃ t2, (applyTrace e tr).called_at = some t2 ∧ t0 ≤ t2) ∧
       (∀ t0, e.completed_at = some t0 →
          ∃ t2, (applyTrace e tr).completed_at = some t2 ∧ t0 ≤ t2) ∧
       (∀ t2, (applyTrace e tr).called_at = some t2 → t2 ≤ lastTime lo tr) ∧
       (∀ t2, (applyTrace e tr).completed_at = some t2 → t2 ≤ lastTime lo tr)) := by
  induction tr with
  | nil =>
    intro e lo _ hcb hkb
    refine ⟨fun t0 h => ⟨t0, h, Nat.le_refl t0⟩, fun t0 h => ⟨t0, h, Nat.le_refl t0⟩, ?_, ?_⟩
    · intro t2 h
      simp only [applyTrace] at h
      simpa [lastTime] using hcb t2 h
    · intro t2 h
      simp only [applyTrace] at h
      simpa [lastTime] using hkb t2 h
  | cons p rest ih =>
    obtain ⟨s, t⟩ := p
    intro e lo hok hcb hkb
    have hok2 : lo ≤ t ∧ timesOK t rest = true := by simpa [timesOK] using hok
    have hcb1 : ∀ t0, (applyStatus e s t).called_at = some t0 → t0 ≤ t := by
      intro t0 h
      by_cases hs : s = "In Progress"
      · simp [applyStatus, hs] at h
        omega
      · simp [applyStatus, hs] at h
        exact Nat.le_trans (hcb t0 h) hok2.1
    have hkb1 : ∀ t0, (applyStatus e s t).completed_at = some t0 → t0 ≤ t := by
      intro t0 h
      by_cases hs : s = "Completed"
      · simp [applyStatus, hs] at h
        omega
      · simp [applyStatus, hs] at h
        exact Nat.le_trans (hkb t0 h) hok2.1
    have IH := ih (applyStatus e s t) t hok2.2 hcb1 hkb1
    refine ⟨?_, ?_, ?_, ?_⟩
    · intro t0 h0
      by_cases hs : s = "In Progress"
      · have h1 : (applyStatus e s t).called_at = some t := by simp [applyStatus, hs]
        obtain ⟨t2, h2, h3⟩ := IH.1 t h1
        refine ⟨t2, by simpa [applyTrace] using h2, ?_⟩
        exact Nat.le_trans (Nat.le_trans (hcb t0 h0) hok2.1) h3
      · have h1 : (applyStatus e s t).called_at = some t0 := by simp [applyStatus, hs, h0]
        obtain ⟨t2, h2, h3⟩ := IH.1 t0 h1
        exact ⟨t2, by simpa [applyTrace] using h2, h3⟩
    · intro t0 h0
      by_cases hs : s = "Completed"
      · have h1 : (applyStatus e s t).completed_at = some t := by simp [applyStatus, hs]
        obtain ⟨t2, h2, h3⟩ := IH.2.1 t h1
        refine ⟨t2, by simpa [applyTrace] using h2, ?_⟩
        exact Nat.le_trans (Nat.le_trans (hkb t0 h0) hok2.1) h3
      · have h1 : (applyStatus e s t).completed_at = some t0 := by simp [applyStatus, hs, h0]
        obtain ⟨t2, h2, h3⟩ := IH.2.1 t0 h1
        exact ⟨t2, by simpa [applyTrace] using h2, h3⟩
    · intro t2 h2
      have h3 := IH.2.2.1 t2 (by simpa [applyTrace] using h2)
      simpa [lastTime] using h3
    · intro t2 h2
      have h3 := IH.2.2.2 t2 (by simpa [applyTrace] using h2)
      simpa [lastTime] using h3

lemma applyTrace_lb (tr : List (String × Nat)) :
    ∀ (e : Entry) (lo r : Nat), timesOK lo tr = true → r ≤ lo →
      (∀ t0, e.called_at = some t0 → r ≤ t0) →
      (∀ t0, e.completed_at = some t0 → r ≤ t0) →
      ((∀ t0, (applyTrace e tr).called_at = some t0 → r ≤ t0) ∧
       (∀ t0, (applyTrace e tr).completed_at = some t0 → r ≤ t0)) := by
  induction tr with
  | nil =>
    intro e lo r _ _ hc hk
    constructor
    · intro t0 h
      simp only [applyTrace] at h
      exact hc t0 h
    · intro t0 h
      simp only [applyTrace] at h
      exact hk t0 h
  | cons p rest ih =>
    obtain ⟨s, t⟩ := p
    intro e lo r hok hrlo hc hk
    have hok2 : lo ≤ t ∧ timesOK t rest = true := by simpa [timesOK] using hok
    have hrt : r ≤ t := Nat.le_trans hrlo hok2.1
    have h1 := ih (applyStatus e s t) t r hok2.2 hrt ?_ ?_
    · constructor
      · intro t0 h
        exact h1.1 t0 (by simpa [applyTrace] using h)
      · intro t0 h
        exact h1.2 t0 (by simpa [applyTrace] using h)
    · intro t0 h0
      by_cases hs : s = "In Progress"
      · simp [applyStatus, hs] at h0
        omega
      · simp [applyStatus, hs] at h0
        exact hc t0 h0
    · intro t0 h0
      by_cases hs : s = "Completed"
      · simp [applyStatus, hs] at h0
        omega
      · simp [applyStatus, hs] at h0
        exact hk t0 h0

/-- C5 amended: starting from a fresh entry and any sequence of status
updates stamped with a nondecreasing wall clock, called_at is set iff some
update requested In Progress and completed_at iff some update requested
Completed; both stamps stay at or above the registration time; once set,
neither stamp is ever cleared or decreased by later updates; and along the
legal path (In Progress at t1, then Completed at t2) the chain registration
<= called_at <= completed_at holds.  The unrestricted chain of the original
claim fails when Completed is stamped before In Progress (see the
counterexample), which the code permits. -/
theorem C5_timestamp_discipline_amended (e : Entry) (tr : List (String × Nat))
    (hc0 : e.called_at = none) (hk0 : e.completed_at = none)
    (hok : timesOK e.registered_at tr = true) :
    ((applyTrace e tr).called_at.isSome = tr.any (fun p => p.1 == "In Progress")) ∧
    ((applyTrace e tr).completed_at.isSome = tr.any (fun p => p.1 == "Completed")) ∧
    (∀ t0, (applyTrace e tr).called_at = some t0 → e.registered_at ≤ t0) ∧
    (∀ t0, (applyTrace e tr).completed_at = some t0 → e.registered_at ≤ t0) ∧
    (∀ tr2, timesOK (lastTime e.registered_at tr) tr2 = true →
      (∀ t0, (applyTrace e tr).called_at = some t0 →
        ∃ t2, (applyTrace (applyTrace e tr) tr2).called_at = some t2 ∧ t0 ≤ t2) ∧
      (∀ t0, (applyTrace e tr).completed_at = some t0 →
        ∃ t2, (applyTrace (applyTrace e tr) tr2).completed_at = some t2 ∧ t0 ≤ t2)) ∧
    (∀ t1 t2, tr = [("In Progress", t1), ("Completed", t2)] →
      (applyTrace e tr).called_at = some t1 ∧ (applyTrace e tr).completed_at = some t2 ∧
      e.registered_at ≤ t1 ∧ t1 ≤ t2) := by
  have hcnone : ∀ t0, e.called_at = some t0 → False := by
    intro t0 h
    rw [hc0] at h
    exact Option.noConfusion h
  have hknone : ∀ t0, e.completed_at = some t0 → False := by
    intro t0 h
    rw [hk0] at h
    exact Option.noConfusion h
  have hlb := applyTrace_lb tr e e.registered_at e.registered_at hok
    (Nat.le_refl e.registered_at) (fun t0 h => absurd h (fun h2 => hcnone t0 h2))
    (fun t0 h => absurd h (fun h2 => hknone t0 h2))
  have hmono0 := applyTrace_mono tr e e.registered_at hok
    (fun t0 h => absurd h (fun h2 => hcnone t0 h2))
    (fun t0 h => absurd h (fun h2 => hknone t0 h2))
  refine ⟨?_, ?_, hlb.1, hlb.2, ?_, ?_⟩
  · rw [applyTrace_called_isSome tr e, hc0]
    simp
  · rw [applyTrace_completed_isSome tr e, hk0]
    simp
  · intro tr2 hok2
    have hmono := applyTrace_mono tr2 (applyTrace e tr) (lastTime e.registered_at tr) hok2
      hmono0.2.2.1 hmono0.2.2.2
    exact ⟨hmono.1, hmono.2.1⟩
  · intro t1 t2 htr
    subst htr
    have hok3 : e.registered_at ≤ t1 ∧ t1 ≤ t2 := by
      simpa [timesOK] using hok
    exact ⟨rfl, rfl, hok3.1, hok3.2⟩

/-- Witness for C5: the fresh entry eW registered at time 5, advanced along
the legal trace trW (In Progress at 6, Completed at 7). -/
theorem C5_timestamp_discipline_amended_witness :
    (applyTrace eW trW).called_at = some 6 ∧ (applyTrace eW trW).completed_at = some 7 ∧
    5 ≤ 6 ∧ 6 ≤ 7 :=
  (C5_timestamp_discipline_amended eW trW rfl rfl (by decide)).2.2.2.2.2 6 7 rfl
